import Mathlib

/-!
# WeatherEmail

A shallow embedding of `main.go` (package `main` of anagavalli/WeatherEmail) and the
properties of its forecast filter, its aggregation loop, its notifier and its handler.

Conventions of the embedding:

* Go `int` values are `Int`; the program only compares and copies them.
* A `time.Time` is an instant (Unix seconds and nanoseconds) together with a `Location`.
* Effects (HTTP, clock, e-mail provider, standard output) are operations of an `Env σ`
  that transform an explicit world state `σ`.
* The standard library and SDK functions the program calls are embedded after their
  documented behaviour; each such definition says which library function it stands for.
-/

namespace WeatherEmail

/-! ## Package `time` -/

/-- A `time.Location`: `lookup` maps a Unix second to the zone period in effect at that
instant, as `(offset, start, end)` with the offset in seconds east of UTC
(`(*Location).lookup`). -/
structure Location where
  name : String
  lookup : Int → Int × Int × Int

/-- The zone `time.UTC`. -/
def UTC : Location := ⟨"UTC", fun _ => (0, -2 ^ 63, 2 ^ 63 - 1)⟩

/-- The zone `time.FixedZone(name, offset)`: one zone period covering all of time. -/
def FixedZone (name : String) (offset : Int) : Location :=
  ⟨name, fun _ => (offset, -2 ^ 63, 2 ^ 63 - 1)⟩

/-- A `time.Time` without monotonic clock reading: `sec` seconds since the Unix epoch,
`nsec` nanoseconds within that second, and the location used for presentation. -/
structure Time where
  sec : Int
  nsec : Nat
  loc : Location

/-- The zero `time.Time`: January 1, year 1, 00:00:00 UTC. -/
def Time.zero : Time := ⟨-62135596800, 0, UTC⟩

/-- The leap-year test `time.isLeap`. -/
def isLeap (year : Int) : Bool :=
  year % 4 == 0 && (year % 100 != 0 || year % 400 == 0)

/-- The table `time.daysBefore` (index 0 to 12): days of a non-leap year that precede
the month with that zero-based number. -/
def daysBefore (i : Int) : Int :=
  if i ≤ 0 then 0 else if i = 1 then 31 else if i = 2 then 59 else if i = 3 then 90
  else if i = 4 then 120 else if i = 5 then 151 else if i = 6 then 181
  else if i = 7 then 212 else if i = 8 then 243 else if i = 9 then 273
  else if i = 10 then 304 else if i = 11 then 334 else 365

/-- Days from 1970-01-01 to January 1 of `year` in the proleptic Gregorian calendar
(`time.daysSinceEpoch`, shifted to the Unix epoch). -/
def daysSinceEpoch (year : Int) : Int :=
  365 * (year - 1970) + (year - 1) / 4 - (year - 1) / 100 + (year - 1) / 400 - 477

/-- Days from 1970-01-01 to the given civil date, as `time.Date` counts them: days before
the year, days before the month, the leap day, days before the day. -/
def civilDays (year month day : Int) : Int :=
  daysSinceEpoch year + daysBefore (month - 1)
    + (if isLeap year && decide (month ≥ 3) then 1 else 0) + (day - 1)

/-- Year and zero-based day of the year of the day `days` days after 1970-01-01: the cycle
arithmetic of `time.absDate` (400-year, 100-year, 4-year and 1-year cycles). -/
def absYear (days : Int) : Int × Int :=
  let d := days + 719162
  let n400 := d / 146097
  let d1 := d - 146097 * n400
  let c := d1 / 36524
  let n100 := c - c / 4
  let d2 := d1 - 36524 * n100
  let n4 := d2 / 1461
  let d3 := d2 - 1461 * n4
  let q := d3 / 365
  let n1 := q - q / 4
  let d4 := d3 - 365 * n1
  (400 * n400 + 100 * n100 + 4 * n4 + n1 + 1, d4)

/-- Month and day of the month from the year and the zero-based day of the year: the
second half of `time.absDate`. -/
def monthDay (year yday : Int) : Int × Int :=
  if isLeap year && decide (yday = 31 + 29 - 1) then (2, 29)
  else
    let day := if isLeap year && decide (yday > 31 + 29 - 1) then yday - 1 else yday
    let month := day / 31
    let stop := daysBefore (month + 1)
    if day ≥ stop then (month + 2, day - stop + 1)
    else (month + 1, day - daysBefore month + 1)

/-- The civil date `(year, month, day)` of the day that lies `days` days after
1970-01-01 (the date computation behind `Time.Date`). -/
def civilFromDays (days : Int) : Int × Int × Int :=
  ((absYear days).1, (monthDay (absYear days).1 (absYear days).2).1,
    (monthDay (absYear days).1 (absYear days).2).2)

/-- The helper `time.norm`: carry `lo` into `hi` so that `0 ≤ lo < base`. -/
def norm (hi lo base : Int) : Int × Int := (hi + lo / base, lo % base)

/-- The method `Time.Local`: the same instant, presented in the process-local zone. -/
def Time.Local (t : Time) (localZone : Location) : Time := { t with loc := localZone }

/-- The method `Time.In`: the same instant, presented in `loc`. -/
def Time.In (t : Time) (loc : Location) : Time := { t with loc := loc }

/-- The method `Time.Location`. -/
def Time.Location (t : Time) : Location := t.loc

/-- The method `Time.Date`: year, month and day of the instant in the time's location. -/
def Time.Date (t : Time) : Int × Int × Int :=
  civilFromDays ((t.sec + (t.loc.lookup t.sec).1) / 86400)

/-- The function `time.Date(year, month, day, hour, min, sec, nsec, loc)`. -/
def Date (year month day hour min sec nsec : Int) (loc : Location) : Time :=
  let ym := norm year (month - 1) 12
  let sn := norm sec nsec 1000000000
  let ms := norm min sn.1 60
  let hm := norm hour ms.1 60
  let dh := norm day hm.1 24
  let unix := civilDays ym.1 (ym.2 + 1) dh.1 * 86400 + dh.2 * 3600 + hm.2 * 60 + ms.2
  let z := loc.lookup unix
  let offset :=
    if z.1 ≠ 0 then
      (if unix - z.1 < z.2.1 ∨ unix - z.1 ≥ z.2.2 then (loc.lookup (unix - z.1)).1 else z.1)
    else 0
  ⟨unix - offset, sn.2.toNat, loc⟩

/-- The method `Time.Before` for times without monotonic clock reading. -/
def Time.Before (t u : Time) : Bool :=
  decide (t.sec < u.sec) || (decide (t.sec = u.sec) && decide (t.nsec < u.nsec))

/-! ## The forecast periods, the filter and the aggregation loop -/

/-- The anonymous struct of the field `RainChance` (`probabilityOfPrecipitation`). -/
structure probabilityOfPrecipitation where
  Value : Int

/-- The struct `period` declared in `getMaxPercipChance`. -/
structure period where
  Name : String
  StartTime : Time
  RainChance : probabilityOfPrecipitation

/-- The generic `filter`: the elements of `s` that pass `test`, in order. -/
def filter {T : Type} (s : List T) (test : T → Bool) : List T :=
  s.foldl (fun ret elm => if test elm then ret ++ [elm] else ret) []

/-- The end of the day of `now` in `loc`: 23:59:59 of the calendar date that `now` has
in `loc` (the value `endOfDay` of the filter's closure). -/
def endOfDay (loc : Location) (now : Time) : Time :=
  Date (now.In loc).Date.1 (now.In loc).Date.2.1 (now.In loc).Date.2.2 23 59 59 0 loc

/-- The closure passed to `filter` in `getMaxPercipChance`; `localZone` is `time.Local`. -/
def startsToday (localZone : Location) (now : Time) (elm : period) : Bool :=
  let loc := (elm.StartTime.Local localZone).Location
  elm.StartTime.Before (endOfDay loc now)

/-- The loop over the retained periods that computes `maxPercipChance`. -/
def maxLoop (periods : List period) : Int :=
  periods.foldl
    (fun maxPercipChance elm =>
      if elm.RainChance.Value > maxPercipChance then elm.RainChance.Value
      else maxPercipChance)
    0

/-- The filter-and-max step of `getMaxPercipChance` (`maxPercipForToday` in the
specification): filter the periods with `startsToday`, then take the maximum. -/
def maxPercipForToday (localZone : Location) (now : Time) (periods : List period) : Int :=
  maxLoop (filter periods (startsToday localZone now))

/-! ## Errors -/

/-- Go `error` values as the program sees them: a value that implements `awserr.Error`
(with its `Code()` and the text of its `Error()`), any other error value (with the text of
its `Error()`; the results of `fmt.Errorf` with `%v` are of this kind), and the result of
`errors.Wrapf` (a label around a cause). -/
inductive Err where
  | aws (code : String) (text : String)
  | plain (text : String)
  | wrapped (label : String) (cause : Err)

/-- The method `Error()`; a wrapped error prints as `label: cause`. -/
def Err.Error : Err → String
  | .aws _ text => text
  | .plain text => text
  | .wrapped label cause => label ++ ": " ++ cause.Error

/-- The type assertion `err.(awserr.Error)` followed by `Code()`: the code when the error
implements `awserr.Error`, `none` when the assertion fails. -/
def Err.Code : Err → Option String
  | .aws code _ => some code
  | _ => none

/-- Outcome of a Go call that either returns or panics. -/
inductive Ret (α : Type) where
  | returned (a : α)
  | panicked (v : Err)

/-! ## Package `encoding/json` -/

/-- A syntactically valid JSON text as a tree. A number carries its value when its literal
is an integer literal (no fraction, no exponent) and `none` otherwise; a string carries its
unquoted value and the raw text between its quotes; an object carries its members in
source order, repeated keys included. -/
inductive JSON where
  | null
  | bool (b : Bool)
  | num (int : Option Int)
  | str (val : String) (raw : String)
  | arr (elems : List JSON)
  | obj (members : List (String × JSON))

/-- Case folding of one character of a key, as far as it can reach an ASCII letter: the
lower-case ASCII letters, the long s (U+017F) and the Kelvin sign (U+212A). The field
names of this program are ASCII, so no other character can take part in a match. -/
def foldRune (c : Char) : Char :=
  if 97 ≤ c.toNat ∧ c.toNat ≤ 122 then Char.ofNat (c.toNat - 32)
  else if c.toNat = 383 then 'S'
  else if c.toNat = 8490 then 'K'
  else c

/-- The folded form of a key (`json.foldName`), used for the case-insensitive match. -/
def foldName (s : String) : String := String.mk (s.data.map foldRune)

/-- The struct field a JSON key is decoded into: the field with exactly that name, else the
first field whose name matches case-insensitively, else none. -/
def findField (names : List String) (key : String) : Option String :=
  match names.find? (fun n => n == key) with
  | some n => some n
  | none => names.find? (fun n => foldName n == foldName key)

/-- State of a decoding step: the target after the step, whether a type mismatch was
recorded (`d.saveError`, decoding goes on), and whether decoding stopped because an
`Unmarshaler` returned an error. -/
structure Dec (T : Type) where
  val : T
  saved : Bool
  failed : Bool

/-- Decode a JSON value into a Go `string`. -/
def storeString (j : JSON) (old : String) : Dec String :=
  match j with
  | .str val _ => ⟨val, false, false⟩
  | .null => ⟨old, false, false⟩
  | _ => ⟨old, true, false⟩

/-- Decode a JSON value into a Go `int` (64 bits): an integer literal in range is stored,
any other number is a recorded type mismatch. -/
def storeInt (j : JSON) (old : Int) : Dec Int :=
  match j with
  | .num (some n) =>
    if -2 ^ 63 ≤ n ∧ n < 2 ^ 63 then ⟨n, false, false⟩ else ⟨old, true, false⟩
  | .null => ⟨old, false, false⟩
  | _ => ⟨old, true, false⟩

/-- Decode a JSON value into a `time.Time` through `Time.UnmarshalJSON`: `null` is a no-op,
a string is parsed as RFC 3339 from its raw text (`parseTime`), and a failure stops the
decoding. -/
def storeTime (parseTime : String → Option Time) (j : JSON) (old : Time) : Dec Time :=
  match j with
  | .null => ⟨old, false, false⟩
  | .str _ raw =>
    match parseTime raw with
    | some t => ⟨t, false, false⟩
    | none => ⟨Time.zero, false, true⟩
  | _ => ⟨old, false, true⟩

/-- Decode the members of a JSON object, in order, into a struct: `store f v t` decodes
the value `v` into the field named `f` of `t`. Unknown keys are skipped. -/
def decodeMembers {T : Type} (names : List String) (store : String → JSON → T → Dec T) :
    List (String × JSON) → T → Dec T
  | [], t => ⟨t, false, false⟩
  | (key, v) :: rest, t =>
    match findField names key with
    | none => decodeMembers names store rest t
    | some f =>
      let r := store f v t
      if r.failed then r
      else
        let r2 := decodeMembers names store rest r.val
        ⟨r2.val, r.saved || r2.saved, r2.failed⟩

/-- Decode a JSON value into a struct: an object is decoded member by member, `null` is a
no-op, anything else is a recorded type mismatch. -/
def decodeStruct {T : Type} (names : List String) (store : String → JSON → T → Dec T)
    (j : JSON) (t : T) : Dec T :=
  match j with
  | .obj members => decodeMembers names store members t
  | .null => ⟨t, false, false⟩
  | _ => ⟨t, true, false⟩

/-- Decode the elements of a JSON array into a slice: element `i` is decoded into the
slice element `i`, which is the old one when the slice was that long and a zero value
otherwise; at the end the slice is cut to the number of elements decoded. When decoding
stops at an element, that element and the rest of the old slice stay. (Spare capacity
left by an earlier, longer decoding of the same field is taken to be zeroed.) -/
def decodeElems {T : Type} (zero : T) (elem : JSON → T → Dec T) :
    List JSON → List T → Dec (List T)
  | [], _ => ⟨[], false, false⟩
  | j :: js, old =>
    let r := elem j (old.headD zero)
    if r.failed then ⟨r.val :: old.tail, r.saved, true⟩
    else
      let r2 := decodeElems zero elem js old.tail
      ⟨r.val :: r2.val, r.saved || r2.saved, r2.failed⟩

/-- Decode a JSON value into a slice: an array element by element, `null` empties the
slice, anything else is a recorded type mismatch. -/
def decodeSlice {T : Type} (zero : T) (elem : JSON → T → Dec T) (j : JSON) (old : List T) :
    Dec (List T) :=
  match j with
  | .arr elems => decodeElems zero elem elems old
  | .null => ⟨[], false, false⟩
  | _ => ⟨old, true, false⟩

/-- Errors of `json.Unmarshal`. -/
inductive UnmarshalError where
  | invalidText
  | typeMismatch
  | unmarshalerFailed

/-- The function `json.Unmarshal(data, &v)`: an invalid text leaves `v` untouched;
otherwise the value is decoded into `v`, and the error is the one that stopped the
decoding, else the recorded type mismatch, else none. -/
def Unmarshal {T : Type} (parseJSON : String → Option JSON) (decode : JSON → T → Dec T)
    (data : String) (v : T) : T × Option UnmarshalError :=
  match parseJSON data with
  | none => (v, some .invalidText)
  | some j =>
    let r := decode j v
    (r.val, if r.failed then some .unmarshalerFailed
            else if r.saved then some .typeMismatch else none)

/-! ## The response structs of `getMaxPercipChance` -/

/-- The field `Properties` of `pointResponse`. -/
structure PointProperties where
  Forecast : String
  ForecastHourly : String

/-- The struct `pointResponse`. -/
structure PointResponse where
  Properties : PointProperties

/-- The field `Properties` of `forecastResponse`. -/
structure ForecastProperties where
  Periods : List period

/-- The struct `forecastResponse`. -/
structure ForecastResponse where
  Properties : ForecastProperties

/-- The zero value of `period`. -/
def period.zero : period := ⟨"", Time.zero, ⟨0⟩⟩

/-- JSON names of the fields of `pointResponse.Properties`. -/
def pointPropertyNames : List String := ["forecast", "forecastHourly"]

/-- Field decoder of `pointResponse.Properties`. -/
def storePointProperty (f : String) (v : JSON) (t : PointProperties) : Dec PointProperties :=
  if f = "forecast" then
    let r := storeString v t.Forecast
    ⟨{ t with Forecast := r.val }, r.saved, r.failed⟩
  else
    let r := storeString v t.ForecastHourly
    ⟨{ t with ForecastHourly := r.val }, r.saved, r.failed⟩

/-- Field decoder of `pointResponse`. -/
def storePointResponse (_f : String) (v : JSON) (t : PointResponse) : Dec PointResponse :=
  let r := decodeStruct pointPropertyNames storePointProperty v t.Properties
  ⟨{ t with Properties := r.val }, r.saved, r.failed⟩

/-- Decoder of `pointResponse`. -/
def decodePointResponse (j : JSON) (t : PointResponse) : Dec PointResponse :=
  decodeStruct ["properties"] storePointResponse j t

/-- Field decoder of the struct of `RainChance`. -/
def storeRainChance (_f : String) (v : JSON) (t : probabilityOfPrecipitation) :
    Dec probabilityOfPrecipitation :=
  let r := storeInt v t.Value
  ⟨{ t with Value := r.val }, r.saved, r.failed⟩

/-- JSON names of the fields of `period`. -/
def periodNames : List String := ["name", "startTime", "probabilityOfPrecipitation"]

/-- Field decoder of `period`. -/
def storePeriod (parseTime : String → Option Time) (f : String) (v : JSON) (t : period) :
    Dec period :=
  if f = "name" then
    let r := storeString v t.Name
    ⟨{ t with Name := r.val }, r.saved, r.failed⟩
  else if f = "startTime" then
    let r := storeTime parseTime v t.StartTime
    ⟨{ t with StartTime := r.val }, r.saved, r.failed⟩
  else
    let r := decodeStruct ["value"] storeRainChance v t.RainChance
    ⟨{ t with RainChance := r.val }, r.saved, r.failed⟩

/-- Decoder of `period`. -/
def decodePeriod (parseTime : String → Option Time) (j : JSON) (t : period) : Dec period :=
  decodeStruct periodNames (storePeriod parseTime) j t

/-- Field decoder of `forecastResponse.Properties`. -/
def storeForecastProperty (parseTime : String → Option Time) (_f : String) (v : JSON)
    (t : ForecastProperties) : Dec ForecastProperties :=
  let r := decodeSlice period.zero (decodePeriod parseTime) v t.Periods
  ⟨{ t with Periods := r.val }, r.saved, r.failed⟩

/-- Field decoder of `forecastResponse`. -/
def storeForecastResponse (parseTime : String → Option Time) (_f : String) (v : JSON)
    (t : ForecastResponse) : Dec ForecastResponse :=
  let r := decodeStruct ["periods"] (storeForecastProperty parseTime) v t.Properties
  ⟨{ t with Properties := r.val }, r.saved, r.failed⟩

/-- Decoder of `forecastResponse`. -/
def decodeForecastResponse (parseTime : String → Option Time) (j : JSON)
    (t : ForecastResponse) : Dec ForecastResponse :=
  decodeStruct ["properties"] (storeForecastResponse parseTime) j t

/-! ## What `main.go` imports -/

/-- An `*http.Response` as a handle; its body is read with `Env.ReadAll`. -/
structure Response where
  id : Nat

/-- A `*session.Session` of the AWS SDK as a handle. -/
structure Session where
  id : Nat

/-- The `ses.SendEmailInput` assembled by `sendEmail`, with the fields the program sets. -/
structure SendEmailInput where
  ToAddresses : List String
  BodyTextCharset : String
  BodyTextData : String
  SubjectCharset : String
  SubjectData : String
  Source : String

/-- The environment of the program: the library operations with effects act on a world
state `σ`; the pure ones and the SDK constants are plain fields.

* `Local` is `time.Local`, `Now` is `time.Now`, `LoadLocation` is `time.LoadLocation`;
* `Get` is `http.Get`, `ReadAll` is `io.ReadAll` on the response body, `Close` is
  `resp.Body.Close`;
* `parseJSON` is the syntax check and scan of `encoding/json` (`none` for an invalid
  text), `parseTime` the RFC 3339 parser of `Time.UnmarshalJSON`;
* `NewSession` is `session.NewSession` for a region, `SendEmail` is `(*SES).SendEmail`;
* `Printf` writes a line to standard output;
* the three `ErrCode` fields are the error-code constants of package `ses`. -/
structure Env (σ : Type) where
  Local : Location
  Now : σ → Time × σ
  LoadLocation : String → σ → Except Err Location × σ
  Get : String → σ → Except Err Response × σ
  ReadAll : Response → σ → Except Err String × σ
  Close : Response → σ → σ
  parseJSON : String → Option JSON
  parseTime : String → Option Time
  NewSession : String → σ → Except Err Session × σ
  SendEmail : Session → SendEmailInput → σ → Option Err × σ
  Printf : String → σ → σ
  ErrCodeMessageRejected : String
  ErrCodeMailFromDomainNotVerifiedException : String
  ErrCodeConfigurationSetDoesNotExistException : String

/-! ## Constants of `main.go` -/

/-- The constant `SF_LAT` as printed by `fmt.Sprintf("%f", SF_LAT)`. -/
def SF_LAT : String := "37.750000"

/-- The constant `SF_LONG` as printed by `fmt.Sprintf("%f", SF_LONG)`. -/
def SF_LONG : String := "-122.430000"

/-- The constant `NWS_API_POINT_ENDPOINT`. -/
def NWS_API_POINT_ENDPOINT : String := "https://api.weather.gov/points/"

/-- The constant `EMAIL_SENDER`. -/
def EMAIL_SENDER : String := "arnesh.nagavalli46@gmail.com"

/-- The constant `EMAIL_RECIPIENT`. -/
def EMAIL_RECIPIENT : String := "arnesh.nagavalli46@gmail.com"

/-- The text `fmt.Sprintf(EMAIL_SUBJECT_FMT, today)`. -/
def EMAIL_SUBJECT_FMT (today : String) : String := "Rain Reminder - " ++ today

/-- The text `fmt.Sprintf(EMAIL_BODY_FMT, maxPercipChance)`. -/
def EMAIL_BODY_FMT (maxPercipChance : Int) : String :=
  "It\x27s likely going to rain today. Maximum percipitation chance is "
    ++ toString maxPercipChance ++ "%."

/-- The constant `EMAIL_CHAR_SET`. -/
def EMAIL_CHAR_SET : String := "UTF-8"

/-! ## `getMaxPercipChance` -/

/-- The function `getMaxPercipChance(lat, long)`: two GETs, two lenient decodings, then the
filter-and-max step at the current time. The deferred `Close` calls run on return, last
deferred first. The result is the pair `(int, error)`. -/
def getMaxPercipChance {σ : Type} (env : Env σ) (lat long : String) (s : σ) :
    (Int × Option Err) × σ :=
  match env.Get (NWS_API_POINT_ENDPOINT ++ lat ++ "," ++ long) s with
  | (.error err, s1) =>
    ((0, some (.plain ("failed to fetch from point endpoint: " ++ err.Error))), s1)
  | (.ok resp, s1) =>
    match env.ReadAll resp s1 with
    | (.error err, s2) =>
      ((0, some (.plain ("failed to read response from point endpoint: " ++ err.Error))),
        env.Close resp s2)
    | (.ok body, s2) =>
      let pointResponse : PointResponse :=
        (Unmarshal env.parseJSON decodePointResponse body ⟨⟨"", ""⟩⟩).1
      match env.Get pointResponse.Properties.ForecastHourly s2 with
      | (.error err, s3) =>
        ((0, some (.plain ("failed to fetch from forecast endpoint: " ++ err.Error))),
          env.Close resp s3)
      | (.ok resp2, s3) =>
        match env.ReadAll resp2 s3 with
        | (.error err, s4) =>
          ((0, some (.plain
              ("failed to read response from forecast endpoint: " ++ err.Error))),
            env.Close resp (env.Close resp2 s4))
        | (.ok body2, s4) =>
          let forecastResponse : ForecastResponse :=
            (Unmarshal env.parseJSON (decodeForecastResponse env.parseTime) body2 ⟨⟨[]⟩⟩).1
          let now := env.Now s4
          ((maxPercipForToday env.Local now.1 forecastResponse.Properties.Periods, none),
            env.Close resp (env.Close resp2 now.2))

/-! ## `sendEmail` -/

/-- The helper `appendInt` of `Time.Format`: decimal digits, zero-padded to `width`, with
a leading minus sign for a negative number. -/
def appendInt (x : Int) (width : Nat) : String :=
  (if x < 0 then "-" else "")
    ++ String.mk (List.replicate (width - (toString x.natAbs).length) '0')
    ++ toString x.natAbs

/-- The call `t.Format("01-02-2006")`: month, day and year of `t` in its location. -/
def Time.Format_01_02_2006 (t : Time) : String :=
  appendInt t.Date.2.1 2 ++ "-" ++ appendInt t.Date.2.2 2 ++ "-" ++ appendInt t.Date.1 4

/-- The error handling after `svc.SendEmail` failed with `err`: an `awserr.Error` whose
code is one of the three cases of the switch is wrapped with that code as label
(`errors.Wrapf(aerr, "%v", code)`); any other error is left as it is. -/
def labelSendError {σ : Type} (env : Env σ) (err : Err) : Err :=
  match err.Code with
  | some code =>
    if code = env.ErrCodeMessageRejected then
      .wrapped env.ErrCodeMessageRejected err
    else if code = env.ErrCodeMailFromDomainNotVerifiedException then
      .wrapped env.ErrCodeMailFromDomainNotVerifiedException err
    else if code = env.ErrCodeConfigurationSetDoesNotExistException then
      .wrapped env.ErrCodeConfigurationSetDoesNotExistException err
    else err
  | none => err

/-- The `input` that `sendEmail` assembles for the date string `today`. -/
def assembleEmail (today : String) (maxPercipChance : Int) : SendEmailInput :=
  { ToAddresses := [EMAIL_RECIPIENT]
    BodyTextCharset := EMAIL_CHAR_SET
    BodyTextData := EMAIL_BODY_FMT maxPercipChance
    SubjectCharset := EMAIL_CHAR_SET
    SubjectData := EMAIL_SUBJECT_FMT today
    Source := EMAIL_SENDER }

/-- The function `sendEmail(maxPercipChance)`. It returns an `error` (`none` is `nil`), or
panics when the time zone cannot be loaded. -/
def sendEmail {σ : Type} (env : Env σ) (maxPercipChance : Int) (s : σ) :
    Ret (Option Err) × σ :=
  match env.NewSession "us-east-1" s with
  | (.error err, s1) => (.returned (some err), s1)
  | (.ok sess, s1) =>
    match env.LoadLocation "America/Los_Angeles" s1 with
    | (.error err, s2) => (.panicked err, s2)
    | (.ok location, s2) =>
      let now := env.Now s2
      let today := (now.1.In location).Format_01_02_2006
      let input := assembleEmail today maxPercipChance
      match env.SendEmail sess input now.2 with
      | (some err, s3) => (.returned (some (labelSendError env err)), s3)
      | (none, s3) =>
        (.returned none,
          env.Printf ("email successfully sent to " ++ EMAIL_RECIPIENT ++ "\n") s3)

/-! ## `HandleRequest` -/

/-- The function `HandleRequest(ctx, event)`; neither argument is used. The result is the
pair `(*string, error)`. -/
def HandleRequest {σ : Type} (env : Env σ) (s : σ) : Ret (Option String × Option Err) × σ :=
  match getMaxPercipChance env SF_LAT SF_LONG s with
  | ((_, some err), s1) => (.returned (none, some err), s1)
  | ((maxPercipChance, none), s1) =>
    let s2 := env.Printf ("maxPercipChance: " ++ toString maxPercipChance ++ "%\n") s1
    if maxPercipChance > 35 then
      match sendEmail env maxPercipChance s2 with
      | (.panicked v, s3) => (.panicked v, s3)
      | (.returned (some err), s3) => (.returned (none, some err), s3)
      | (.returned none, s3) => (.returned (some "success", none), s3)
    else (.returned (some "success", none), s2)

/-! ## Presence of a field in a JSON text -/

/-- Whether a JSON value is something other than `null`. -/
def JSON.nonNull : JSON → Bool
  | .null => false
  | _ => true

/-- Whether the JSON value is an object with a member that is decoded into the field
`field` (by exact or case-insensitive key match) and whose value passes `sub`. -/
def hasMember (names : List String) (field : String) (sub : JSON → Bool) (j : JSON) : Bool :=
  match j with
  | .obj members => members.any (fun kv => findField names kv.1 == some field && sub kv.2)
  | _ => false

/-- Whether a metadata document has a non-null `properties.forecastHourly`. -/
def hasForecastHourly (j : JSON) : Bool :=
  hasMember ["properties"] "properties"
    (hasMember pointPropertyNames "forecastHourly" JSON.nonNull) j

/-- Whether a forecast document has a non-null `properties.periods`. -/
def hasPeriods (j : JSON) : Bool :=
  hasMember ["properties"] "properties" (hasMember ["periods"] "periods" JSON.nonNull) j

/-- Whether a period document has a non-null `probabilityOfPrecipitation.value`. -/
def hasRainChanceValue (j : JSON) : Bool :=
  hasMember periodNames "probabilityOfPrecipitation"
    (hasMember ["value"] "value" JSON.nonNull) j

/-- Whether a period document has a non-null `startTime`. -/
def hasStartTime (j : JSON) : Bool := hasMember periodNames "startTime" JSON.nonNull j

/-! ## Auxiliary definitions for the proofs -/

/-- The aggregation loop started from an arbitrary running maximum `m`. -/
def maxFrom (m : Int) (periods : List period) : Int :=
  periods.foldl
    (fun maxPercipChance elm =>
      if elm.RainChance.Value > maxPercipChance then elm.RainChance.Value
      else maxPercipChance)
    m

/-! ## Sample inputs -/

/-- The location of a timestamp written with the offset `-08:00`. -/
def zoneMinus8 : Location := FixedZone "" (-28800)

/-- The instant 2024-01-02T02:00:00Z, which is 2024-01-01T18:00:00-08:00. -/
def sampleNow : Time := ⟨1704160800, 0, UTC⟩

/-- A period with the given start (Unix seconds), location and probability. -/
def samplePeriod (start : Int) (loc : Location) (value : Int) : period :=
  ⟨"", ⟨start, 0, loc⟩, ⟨value⟩⟩

/-- A period stamped 2024-01-02T00:00:00-08:00 (08:00:00Z) with probability 90: the start
of the next day in its own zone when it is 18:00 of January 1 there. -/
def nextDayPacific : period := samplePeriod 1704182400 zoneMinus8 90

/-- The same instant as `nextDayPacific`, stamped 2024-01-02T08:00:00Z. -/
def sameInstantUTC : period := samplePeriod 1704182400 UTC 90

/-- Periods at 03:00Z, 04:00Z and 05:00Z of 2024-01-02 with probabilities 10, 45, 20. -/
def todayPeriods : List period :=
  [samplePeriod 1704164400 UTC 10, samplePeriod 1704168000 UTC 45,
    samplePeriod 1704171600 UTC 20]

/-- Events of the sample world, in the order they happen. -/
inductive Event where
  | get (url : String)
  | readAll (id : Nat)
  | close (id : Nat)
  | now
  | loadLocation (name : String)
  | newSession (region : String)
  | sendEmail (subject : String) (body : String)
  | printf (text : String)

/-- Whether an event is a call of the provider's send API. -/
def Event.isSend : Event → Bool
  | .sendEmail _ _ => true
  | _ => false

/-- A metadata document with the hourly forecast URL. -/
def samplePoint : JSON :=
  .obj [("id", .str "https://api.weather.gov/points/37.75,-122.43" ""),
    ("properties", .obj
      [("forecast", .str "https://api.weather.gov/gridpoints/MTR/85,104/forecast" ""),
        ("forecastHourly",
          .str "https://api.weather.gov/gridpoints/MTR/85,104/forecast/hourly" "")])]

/-- A metadata document without `forecastHourly`. -/
def samplePointLacking : JSON :=
  .obj [("properties", .obj
    [("forecast", .str "https://api.weather.gov/gridpoints/MTR/85,104/forecast" "")])]

/-- A forecast document with one period today (03:00Z) of the given probability, one
period today with a `null` probability and one period tomorrow with probability 90. -/
def sampleForecast (value : Int) : JSON :=
  .obj [("properties", .obj [("units", .str "us" "us"), ("periods", .arr
    [.obj [("number", .num (some 1)), ("name", .str "" ""),
        ("startTime", .str "2024-01-02T03:00:00+00:00" "2024-01-02T03:00:00+00:00"),
        ("probabilityOfPrecipitation",
          .obj [("unitCode", .str "wmoUnit:percent" "wmoUnit:percent"),
            ("value", .num (some value))])],
      .obj [("number", .num (some 2)), ("name", .str "" ""),
        ("startTime", .str "2024-01-02T04:00:00+00:00" "2024-01-02T04:00:00+00:00"),
        ("probabilityOfPrecipitation",
          .obj [("unitCode", .str "wmoUnit:percent" "wmoUnit:percent"),
            ("value", .null)])],
      .obj [("number", .num (some 22)), ("name", .str "" ""),
        ("startTime", .str "2024-01-03T00:00:00+00:00" "2024-01-03T00:00:00+00:00"),
        ("probabilityOfPrecipitation",
          .obj [("unitCode", .str "wmoUnit:percent" "wmoUnit:percent"),
            ("value", .num (some 90))])]])])]

/-- The RFC 3339 timestamps of the sample documents. -/
def sampleParseTime (raw : String) : Option Time :=
  if raw = "2024-01-02T03:00:00+00:00" then some ⟨1704164400, 0, UTC⟩
  else if raw = "2024-01-02T04:00:00+00:00" then some ⟨1704168000, 0, UTC⟩
  else if raw = "2024-01-03T00:00:00+00:00" then some ⟨1704240000, 0, UTC⟩
  else none

/-- A sample world that records its events: a UTC process at `sampleNow`; the metadata
body parses to `point` and every other body to `forecast`; a GET of the empty URL fails;
the provider's send call ends with `send`. -/
def sampleEnv (point forecast : Option JSON) (send : Option Err) : Env (List Event) where
  Local := UTC
  Now := fun s => (sampleNow, s ++ [.now])
  LoadLocation := fun name s => (.ok zoneMinus8, s ++ [.loadLocation name])
  Get := fun url s =>
    (if url = "" then .error (.plain "unsupported protocol scheme")
      else if url = NWS_API_POINT_ENDPOINT ++ SF_LAT ++ "," ++ SF_LONG then .ok ⟨1⟩
      else .ok ⟨2⟩,
      s ++ [.get url])
  ReadAll := fun resp s =>
    (.ok (if resp.id = 1 then "point" else "forecast"), s ++ [.readAll resp.id])
  Close := fun resp s => s ++ [.close resp.id]
  parseJSON := fun body => if body = "point" then point else forecast
  parseTime := sampleParseTime
  NewSession := fun region s => (.ok ⟨1⟩, s ++ [.newSession region])
  SendEmail := fun _ input s => (send, s ++ [.sendEmail input.SubjectData input.BodyTextData])
  Printf := fun text s => s ++ [.printf text]
  ErrCodeMessageRejected := "MessageRejected"
  ErrCodeMailFromDomainNotVerifiedException := "MailFromDomainNotVerifiedException"
  ErrCodeConfigurationSetDoesNotExistException := "ConfigurationSetDoesNotExist"

/-- The sample world of `sampleEnv` in which the time zone database has no entry: every
`LoadLocation` fails. -/
def sampleEnvNoZone (point forecast : Option JSON) (send : Option Err) : Env (List Event) :=
  { sampleEnv point forecast send with
    LoadLocation := fun name s =>
      (.error (.plain ("unknown time zone " ++ name)), s ++ [.loadLocation name]) }

/-! ## The calendar -/

theorem filter_foldl_acc {T : Type} (test : T → Bool) (s acc : List T) :
    s.foldl (fun ret elm => if test elm then ret ++ [elm] else ret) acc
      = acc ++ List.filter test s := by
  induction s generalizing acc with
  | nil => simp
  | cons a s ih =>
    simp only [List.foldl_cons, ih, List.filter_cons]
    by_cases h : test a = true <;> simp [h]

theorem filter_eq_filter {T : Type} (s : List T) (test : T → Bool) :
    filter s test = List.filter test s := by
  simp [filter, filter_foldl_acc]

theorem maxLoop_eq_maxFrom (periods : List period) : maxLoop periods = maxFrom 0 periods := rfl

theorem maxFrom_cons (m : Int) (p : period) (ps : List period) :
    maxFrom m (p :: ps) = maxFrom (max m p.RainChance.Value) ps := by
  simp only [maxFrom, List.foldl_cons]
  congr 1
  by_cases h : p.RainChance.Value > m
  · simp [h, max_eq_right (le_of_lt h)]
  · simp [h, max_eq_left (not_lt.mp h)]

theorem le_maxFrom (m : Int) (ps : List period) : m ≤ maxFrom m ps := by
  induction ps generalizing m with
  | nil => simp [maxFrom]
  | cons p ps ih => rw [maxFrom_cons]; exact le_trans (le_max_left _ _) (ih _)

theorem mem_le_maxFrom (m : Int) (ps : List period) :
    ∀ p ∈ ps, p.RainChance.Value ≤ maxFrom m ps := by
  induction ps generalizing m with
  | nil => simp
  | cons q ps ih =>
    intro p hp
    rw [maxFrom_cons]
    rcases List.mem_cons.mp hp with rfl | hp
    · exact le_trans (le_max_right _ _) (le_maxFrom _ _)
    · exact ih _ p hp

theorem maxFrom_attained (m : Int) (ps : List period) :
    maxFrom m ps = m ∨ ∃ p ∈ ps, p.RainChance.Value = maxFrom m ps := by
  induction ps generalizing m with
  | nil => left; simp [maxFrom]
  | cons q ps ih =>
    rw [maxFrom_cons]
    rcases ih (max m q.RainChance.Value) with h | ⟨p, hp, h⟩
    · rcases max_choice m q.RainChance.Value with hm | hm
      · left; rw [h, hm]
      · right; exact ⟨q, List.mem_cons_self _ _, by rw [h, hm]⟩
    · right; exact ⟨p, List.mem_cons_of_mem _ hp, h⟩

theorem maxFrom_perm (m : Int) {ps qs : List period} (h : ps.Perm qs) :
    maxFrom m ps = maxFrom m qs := by
  induction h generalizing m with
  | nil => rfl
  | cons x _ ih => simp only [maxFrom_cons]; exact ih _
  | swap x y l =>
    simp only [maxFrom_cons]
    congr 1
    rw [max_assoc, max_assoc, max_comm y.RainChance.Value]
  | trans _ _ ih1 ih2 => exact (ih1 m).trans (ih2 m)


/-! ## Facts about the JSON decoder -/

theorem findField_mem (names : List String) (key f : String)
    (h : findField names key = some f) : f ∈ names := by
  unfold findField at h
  split at h
  · rename_i n hn
    cases h
    exact List.mem_of_find?_eq_some hn
  · exact List.mem_of_find?_eq_some h

/-- An invariant of the target survives the decoding of an object when every member either
goes to another field, which keeps the invariant, or fails `sub`, which keeps it too. -/
theorem decodeMembers_invariant {T : Type} (names : List String)
    (store : String → JSON → T → Dec T) (inv : T → Prop) (field : String)
    (sub : JSON → Bool)
    (hother : ∀ f v u, f ∈ names → f ≠ field → inv u → inv (store f v u).val)
    (hsub : ∀ v u, sub v = false → inv u → inv (store field v u).val)
    (members : List (String × JSON)) (t : T)
    (h : (members.any (fun kv => findField names kv.1 == some field && sub kv.2)) = false)
    (ht : inv t) : inv (decodeMembers names store members t).val := by
  induction members generalizing t with
  | nil => exact ht
  | cons kv rest ih =>
    obtain ⟨key, v⟩ := kv
    simp only [List.any_cons, Bool.or_eq_false_iff, Bool.and_eq_false_imp, beq_iff_eq] at h
    obtain ⟨hhead, hrest⟩ := h
    unfold decodeMembers
    rcases hf : findField names key with _ | f
    · exact ih t hrest ht
    · have hstep : inv (store f v t).val := by
        by_cases hfe : f = field
        · subst hfe
          exact hsub v t (hhead hf) ht
        · exact hother f v t (findField_mem names key f hf) hfe ht
      simp only
      by_cases hfail : (store f v t).failed = true
      · rw [if_pos hfail]; exact hstep
      · rw [if_neg hfail]; exact ih _ hrest hstep

theorem decodeStruct_invariant {T : Type} (names : List String)
    (store : String → JSON → T → Dec T) (inv : T → Prop) (field : String)
    (sub : JSON → Bool)
    (hother : ∀ f v u, f ∈ names → f ≠ field → inv u → inv (store f v u).val)
    (hsub : ∀ v u, sub v = false → inv u → inv (store field v u).val)
    (j : JSON) (t : T) (h : hasMember names field sub j = false) (ht : inv t) :
    inv (decodeStruct names store j t).val := by
  cases j with
  | obj members =>
    exact decodeMembers_invariant names store inv field sub hother hsub members t h ht
  | null => exact ht
  | bool b => exact ht
  | num n => exact ht
  | str a b => exact ht
  | arr xs => exact ht

theorem nonNull_false (v : JSON) (h : v.nonNull = false) : v = .null := by
  cases v <;> simp_all [JSON.nonNull]

theorem decodePointResponse_lacking (j : JSON) (t : PointResponse)
    (h : hasForecastHourly j = false) (ht : t.Properties.ForecastHourly = "") :
    (decodePointResponse j t).val.Properties.ForecastHourly = "" := by
  refine decodeStruct_invariant ["properties"] storePointResponse
    (fun u => u.Properties.ForecastHourly = "") "properties"
    (hasMember pointPropertyNames "forecastHourly" JSON.nonNull) ?_ ?_ j t h ht
  · intro f v u hf hne
    simp at hf
    exact absurd hf hne
  · intro v u hv hu
    refine decodeStruct_invariant pointPropertyNames storePointProperty
      (fun w => w.ForecastHourly = "") "forecastHourly" JSON.nonNull ?_ ?_ v u.Properties hv hu
    · intro f v2 w hf hne hw
      have hf2 : f = "forecast" := by
        simp [pointPropertyNames] at hf
        rcases hf with hf | hf
        · exact hf
        · exact absurd hf hne
      simp [storePointProperty, hf2, hw]
    · intro v2 w hv2 hw
      rw [nonNull_false v2 hv2]
      simp [storePointProperty, storeString, hw]

theorem decodeForecastResponse_lacking (parseTime : String → Option Time) (j : JSON)
    (t : ForecastResponse) (h : hasPeriods j = false) (ht : t.Properties.Periods = []) :
    (decodeForecastResponse parseTime j t).val.Properties.Periods = [] := by
  refine decodeStruct_invariant ["properties"] (storeForecastResponse parseTime)
    (fun u => u.Properties.Periods = []) "properties"
    (hasMember ["periods"] "periods" JSON.nonNull) ?_ ?_ j t h ht
  · intro f v u hf hne
    simp at hf
    exact absurd hf hne
  · intro v u hv hu
    refine decodeStruct_invariant ["periods"] (storeForecastProperty parseTime)
      (fun w => w.Periods = []) "periods" JSON.nonNull ?_ ?_ v u.Properties hv hu
    · intro f v2 w hf hne
      simp at hf
      exact absurd hf hne
    · intro v2 w hv2 hw
      rw [nonNull_false v2 hv2]
      simp [storeForecastProperty, decodeSlice]

theorem decodePeriod_rainChance_lacking (parseTime : String → Option Time) (j : JSON)
    (t : period) (h : hasRainChanceValue j = false) (ht : t.RainChance.Value = 0) :
    (decodePeriod parseTime j t).val.RainChance.Value = 0 := by
  refine decodeStruct_invariant periodNames (storePeriod parseTime)
    (fun u => u.RainChance.Value = 0) "probabilityOfPrecipitation"
    (hasMember ["value"] "value" JSON.nonNull) ?_ ?_ j t h ht
  · intro f v u hf hne hu
    simp [periodNames] at hf
    rcases hf with hf | hf | hf
    · simp [storePeriod, hf, hu]
    · simp [storePeriod, hf, hu]
    · exact absurd hf hne
  · intro v u hv hu
    have : (decodeStruct ["value"] storeRainChance v u.RainChance).val.Value = 0 := by
      refine decodeStruct_invariant ["value"] storeRainChance (fun w => w.Value = 0) "value"
        JSON.nonNull ?_ ?_ v u.RainChance hv hu
      · intro f v2 w hf hne
        simp at hf
        exact absurd hf hne
      · intro v2 w hv2 hw
        rw [nonNull_false v2 hv2]
        simp [storeRainChance, storeInt, hw]
    simpa [storePeriod] using this

theorem decodePeriod_startTime_lacking (parseTime : String → Option Time) (j : JSON)
    (t : period) (h : hasStartTime j = false) :
    (decodePeriod parseTime j t).val.StartTime = t.StartTime := by
  refine decodeStruct_invariant periodNames (storePeriod parseTime)
    (fun u => u.StartTime = t.StartTime) "startTime" JSON.nonNull ?_ ?_ j t h rfl
  · intro f v u hf hne hu
    simp [periodNames] at hf
    rcases hf with hf | hf | hf
    · simp [storePeriod, hf, hu]
    · exact absurd hf hne
    · simp [storePeriod, hf, hu]
  · intro v u hv hu
    rw [nonNull_false v hv]
    simp [storePeriod, storeTime, hu]

set_option maxRecDepth 100000

/-! ## The end of the day in a fixed zone -/

theorem maxPercipForToday_eq (localZone : Location) (now : Time) (periods : List period) :
    maxPercipForToday localZone now periods
      = maxFrom 0 (List.filter (startsToday localZone now) periods) := by
  simp [maxPercipForToday, filter_eq_filter, maxLoop_eq_maxFrom]

/-! ## The filter-and-max step -/

/-- C1: when the retained periods carry percentages (non-negative values), the
filter-and-max step returns the maximum value among the periods retained by the same-day
filter: it bounds every retained value and, when some period is retained, it is the value
of a retained period; it returns 0 when no period is retained, and so on the empty
sequence. -/
theorem maxPercipForToday_is_maximum (localZone : Location) (now : Time)
    (periods : List period)
    (hpct : ∀ p ∈ periods, startsToday localZone now p = true → 0 ≤ p.RainChance.Value) :
    (∀ p ∈ periods, startsToday localZone now p = true →
        p.RainChance.Value ≤ maxPercipForToday localZone now periods)
    ∧ ((∃ p ∈ periods, startsToday localZone now p = true) →
        ∃ p ∈ periods, startsToday localZone now p = true
          ∧ p.RainChance.Value = maxPercipForToday localZone now periods)
    ∧ ((∀ p ∈ periods, startsToday localZone now p = false) →
        maxPercipForToday localZone now periods = 0)
    ∧ maxPercipForToday localZone now [] = 0 := by
  rw [maxPercipForToday_eq]
  refine ⟨?_, ?_, ?_, ?_⟩
  · intro p hp ht
    exact mem_le_maxFrom 0 _ p (List.mem_filter.mpr ⟨hp, ht⟩)
  · rintro ⟨q, hq, hqt⟩
    rcases maxFrom_attained 0 (List.filter (startsToday localZone now) periods) with h | h
    · have hq0 : 0 ≤ q.RainChance.Value := hpct q hq hqt
      have hqle := mem_le_maxFrom 0 _ q (List.mem_filter.mpr ⟨hq, hqt⟩)
      exact ⟨q, hq, hqt, by omega⟩
    · obtain ⟨p, hp, hpv⟩ := h
      obtain ⟨hp1, hp2⟩ := List.mem_filter.mp hp
      exact ⟨p, hp1, hp2, hpv⟩
  · intro hnone
    have : List.filter (startsToday localZone now) periods = [] := by
      rw [List.filter_eq_nil_iff]
      intro p hp
      simp [hnone p hp]
    rw [this]
    rfl
  · rfl

/-- C1, at a concrete input: with the clock at 2024-01-02T02:00:00Z in a UTC process, the
periods of that day with values 10, 45 and 20 are retained and the result is 45. -/
theorem maxPercipForToday_is_maximum_witness :
    (∀ p ∈ todayPeriods, startsToday UTC sampleNow p = true → 0 ≤ p.RainChance.Value)
    ∧ maxPercipForToday UTC sampleNow todayPeriods = 45
    ∧ (∃ p ∈ todayPeriods, startsToday UTC sampleNow p = true
        ∧ p.RainChance.Value = maxPercipForToday UTC sampleNow todayPeriods) :=
  ⟨by decide, by decide,
    (maxPercipForToday_is_maximum UTC sampleNow todayPeriods (by decide)).2.1
      ⟨samplePeriod 1704164400 UTC 10, by simp [todayPeriods], by decide⟩⟩

/-- C10: for arbitrary integer values the result of the filter-and-max step is
non-negative, bounds the value of every retained period, is 0 or the value of a retained
period, exceeds 100 whenever a retained value does, and is the same for every reordering
of the periods. -/
theorem maxPercipForToday_invariants (localZone : Location) (now : Time)
    (periods : List period) :
    0 ≤ maxPercipForToday localZone now periods
    ∧ (∀ p ∈ periods, startsToday localZone now p = true →
        p.RainChance.Value ≤ maxPercipForToday localZone now periods)
    ∧ (maxPercipForToday localZone now periods = 0
        ∨ ∃ p ∈ periods, startsToday localZone now p = true
            ∧ p.RainChance.Value = maxPercipForToday localZone now periods)
    ∧ (∀ p ∈ periods, startsToday localZone now p = true → 100 < p.RainChance.Value →
        100 < maxPercipForToday localZone now periods)
    ∧ (∀ reordered : List period, periods.Perm reordered →
        maxPercipForToday localZone now reordered
          = maxPercipForToday localZone now periods) := by
  simp only [maxPercipForToday_eq]
  refine ⟨le_maxFrom 0 _, ?_, ?_, ?_, ?_⟩
  · intro p hp ht
    exact mem_le_maxFrom 0 _ p (List.mem_filter.mpr ⟨hp, ht⟩)
  · rcases maxFrom_attained 0 (List.filter (startsToday localZone now) periods) with h | h
    · exact Or.inl h
    · obtain ⟨p, hp, hpv⟩ := h
      obtain ⟨hp1, hp2⟩ := List.mem_filter.mp hp
      exact Or.inr ⟨p, hp1, hp2, hpv⟩
  · intro p hp ht hbig
    exact lt_of_lt_of_le hbig (mem_le_maxFrom 0 _ p (List.mem_filter.mpr ⟨hp, ht⟩))
  · intro reordered hperm
    exact (maxFrom_perm 0 (hperm.filter _)).symm

/-- C10, at concrete inputs: retained values -5 and 150 give 150, above 100; a single
retained value -5 gives 0. -/
theorem maxPercipForToday_invariants_witness :
    maxPercipForToday UTC sampleNow
        [samplePeriod 1704164400 UTC (-5), samplePeriod 1704168000 UTC 150] = 150
    ∧ maxPercipForToday UTC sampleNow [samplePeriod 1704164400 UTC (-5)] = 0
    ∧ 100 < maxPercipForToday UTC sampleNow
        [samplePeriod 1704164400 UTC (-5), samplePeriod 1704168000 UTC 150] :=
  ⟨by decide, by decide,
    (maxPercipForToday_invariants UTC sampleNow
      [samplePeriod 1704164400 UTC (-5), samplePeriod 1704168000 UTC 150]).2.2.2.1
      (samplePeriod 1704168000 UTC 150) (by simp) (by decide) (by decide)⟩

/-! ## The same-day filter -/

/-- C9: two periods whose start times are the same instant get the same decision from the
same-day filter, whatever locations (UTC offsets) their timestamps carry and whatever
else they hold; the decision is the comparison of the start instant with the end of the
day of `now` in the process-local zone. -/
theorem startsToday_ignores_offset (localZone : Location) (now : Time) (p q : period)
    (hsec : p.StartTime.sec = q.StartTime.sec) (hnsec : p.StartTime.nsec = q.StartTime.nsec) :
    startsToday localZone now p = startsToday localZone now q := by
  simp only [startsToday, Time.Local, Time.Location, Time.Before, hsec, hnsec]

/-- C9, at a concrete input: the same instant stamped `-08:00` and stamped `Z` is judged
alike. -/
theorem startsToday_ignores_offset_witness :
    (nextDayPacific.StartTime.loc.lookup 0).1 ≠ (sameInstantUTC.StartTime.loc.lookup 0).1
    ∧ startsToday UTC sampleNow nextDayPacific = startsToday UTC sampleNow sameInstantUTC :=
  ⟨by decide, startsToday_ignores_offset UTC sampleNow nextDayPacific sameInstantUTC rfl rfl⟩

theorem unmarshal_point_lacking (parseJSON : String → Option JSON) (body : String)
    (hlack : ∀ j, parseJSON body = some j → hasForecastHourly j = false) :
    (Unmarshal parseJSON decodePointResponse body ⟨⟨"", ""⟩⟩).1.Properties.ForecastHourly
      = "" := by
  unfold Unmarshal
  rcases hp : parseJSON body with _ | j
  · rfl
  · exact decodePointResponse_lacking j _ (hlack j hp) rfl

theorem unmarshal_forecast_lacking (parseJSON : String → Option JSON)
    (parseTime : String → Option Time) (body : String)
    (hlack : ∀ j, parseJSON body = some j → hasPeriods j = false) :
    (Unmarshal parseJSON (decodeForecastResponse parseTime) body ⟨⟨[]⟩⟩).1.Properties.Periods
      = [] := by
  unfold Unmarshal
  rcases hp : parseJSON body with _ | j
  · rfl
  · exact decodeForecastResponse_lacking parseTime j _ (hlack j hp) rfl

theorem getMaxPercipChance_forecast_get_failed {σ : Type} (env : Env σ) (lat long : String)
    (s s1 s2 s3 : σ) (resp : Response) (body : String) (err : Err)
    (hget : env.Get (NWS_API_POINT_ENDPOINT ++ lat ++ "," ++ long) s = (.ok resp, s1))
    (hread : env.ReadAll resp s1 = (.ok body, s2))
    (hget2 : env.Get
        (Unmarshal env.parseJSON decodePointResponse body ⟨⟨"", ""⟩⟩).1.Properties.ForecastHourly
        s2 = (.error err, s3)) :
    getMaxPercipChance env lat long s
      = ((0, some (.plain ("failed to fetch from forecast endpoint: " ++ err.Error))),
          env.Close resp s3) := by
  simp only [getMaxPercipChance, hget, hread, hget2]

theorem getMaxPercipChance_ok {σ : Type} (env : Env σ) (lat long : String)
    (s s1 s2 s3 s4 : σ) (resp resp2 : Response) (body body2 : String)
    (hget : env.Get (NWS_API_POINT_ENDPOINT ++ lat ++ "," ++ long) s = (.ok resp, s1))
    (hread : env.ReadAll resp s1 = (.ok body, s2))
    (hget2 : env.Get
        (Unmarshal env.parseJSON decodePointResponse body ⟨⟨"", ""⟩⟩).1.Properties.ForecastHourly
        s2 = (.ok resp2, s3))
    (hread2 : env.ReadAll resp2 s3 = (.ok body2, s4)) :
    getMaxPercipChance env lat long s
      = ((maxPercipForToday env.Local (env.Now s4).1
            (Unmarshal env.parseJSON (decodeForecastResponse env.parseTime) body2
              ⟨⟨[]⟩⟩).1.Properties.Periods, none),
          env.Close resp (env.Close resp2 (env.Now s4).2)) := by
  simp only [getMaxPercipChance, hget, hread, hget2, hread2]

theorem HandleRequest_resolver_error {σ : Type} (env : Env σ) (s s1 : σ) (v : Int)
    (err : Err) (hres : getMaxPercipChance env SF_LAT SF_LONG s = ((v, some err), s1)) :
    HandleRequest env s = (.returned (none, some err), s1) := by
  simp only [HandleRequest, hres]

/-- C7: when the metadata body has no `properties.forecastHourly` (absent or `null`), or
is not valid JSON, the decoded URL is empty and the second GET is the GET of the empty URL;
when that GET fails with `err`, `getMaxPercipChance` returns 0 and the error built from
`err`, and `HandleRequest` returns no result and that same error; the world is then the
one left by the failed GET and the deferred close, so the notifier was not invoked. -/
theorem missing_forecastHourly_fails {σ : Type} (env : Env σ) (s s1 s2 s3 : σ)
    (resp : Response) (body : String) (err : Err)
    (hget : env.Get (NWS_API_POINT_ENDPOINT ++ SF_LAT ++ "," ++ SF_LONG) s = (.ok resp, s1))
    (hread : env.ReadAll resp s1 = (.ok body, s2))
    (hlack : ∀ j, env.parseJSON body = some j → hasForecastHourly j = false)
    (hempty : env.Get "" s2 = (.error err, s3)) :
    (Unmarshal env.parseJSON decodePointResponse body ⟨⟨"", ""⟩⟩).1.Properties.ForecastHourly
        = ""
    ∧ getMaxPercipChance env SF_LAT SF_LONG s
        = ((0, some (.plain ("failed to fetch from forecast endpoint: " ++ err.Error))),
            env.Close resp s3)
    ∧ HandleRequest env s
        = (.returned
            (none, some (.plain ("failed to fetch from forecast endpoint: " ++ err.Error))),
            env.Close resp s3) := by
  have hurl := unmarshal_point_lacking env.parseJSON body hlack
  have hmax := getMaxPercipChance_forecast_get_failed env SF_LAT SF_LONG s s1 s2 s3 resp body
    err hget hread (by rw [hurl]; exact hempty)
  exact ⟨hurl, hmax, HandleRequest_resolver_error env s _ 0 _ hmax⟩

/-- C7, at concrete inputs: in the sample world, a metadata document without
`forecastHourly` and a metadata body that is not JSON both lead to a GET of the empty URL
as the second and last GET, to the error of that GET as the result of the invocation, and
to no call of the provider. -/
theorem missing_forecastHourly_fails_witness :
    HandleRequest (sampleEnv (some samplePointLacking) (some (sampleForecast 36)) none) []
        = (.returned (none, some (.plain
            "failed to fetch from forecast endpoint: unsupported protocol scheme")),
            [.get "https://api.weather.gov/points/37.750000,-122.430000", .readAll 1,
              .get "", .close 1])
    ∧ HandleRequest (sampleEnv none (some (sampleForecast 36)) none) []
        = (.returned (none, some (.plain
            "failed to fetch from forecast endpoint: unsupported protocol scheme")),
            [.get "https://api.weather.gov/points/37.750000,-122.430000", .readAll 1,
              .get "", .close 1]) :=
  ⟨(missing_forecastHourly_fails
      (sampleEnv (some samplePointLacking) (some (sampleForecast 36)) none) []
      [.get "https://api.weather.gov/points/37.750000,-122.430000"]
      [.get "https://api.weather.gov/points/37.750000,-122.430000", .readAll 1]
      [.get "https://api.weather.gov/points/37.750000,-122.430000", .readAll 1, .get ""]
      ⟨1⟩ "point" (.plain "unsupported protocol scheme") rfl rfl
      (fun j hj => by
        have hj2 : samplePointLacking = j := Option.some.inj hj
        rw [← hj2]; rfl)
      rfl).2.2,
    (missing_forecastHourly_fails (sampleEnv none (some (sampleForecast 36)) none) []
      [.get "https://api.weather.gov/points/37.750000,-122.430000"]
      [.get "https://api.weather.gov/points/37.750000,-122.430000", .readAll 1]
      [.get "https://api.weather.gov/points/37.750000,-122.430000", .readAll 1, .get ""]
      ⟨1⟩ "point" (.plain "unsupported protocol scheme") rfl rfl
      (fun j hj => nomatch hj)
      rfl).2.2⟩

/-- C8: when both GETs succeed and both bodies are read, `getMaxPercipChance` returns a
nil error, whatever the bodies are and whatever `json.Unmarshal` reported for them, and
its value is the filter-and-max of the periods left in the target by the lenient decoding.
A forecast body that is not valid JSON, or has no `properties.periods` (absent or `null`),
gives 0. Fields that are absent or `null` keep their zero value: the forecast URL is
empty, the probability of a period is 0, its start time is the zero time. -/
theorem getMaxPercipChance_ignores_json_errors {σ : Type} (env : Env σ) (lat long : String)
    (s s1 s2 s3 s4 : σ) (resp resp2 : Response) (body body2 : String)
    (hget : env.Get (NWS_API_POINT_ENDPOINT ++ lat ++ "," ++ long) s = (.ok resp, s1))
    (hread : env.ReadAll resp s1 = (.ok body, s2))
    (hget2 : env.Get
        (Unmarshal env.parseJSON decodePointResponse body ⟨⟨"", ""⟩⟩).1.Properties.ForecastHourly
        s2 = (.ok resp2, s3))
    (hread2 : env.ReadAll resp2 s3 = (.ok body2, s4)) :
    (getMaxPercipChance env lat long s).1.2 = none
    ∧ (getMaxPercipChance env lat long s).1.1
        = maxPercipForToday env.Local (env.Now s4).1
            (Unmarshal env.parseJSON (decodeForecastResponse env.parseTime) body2
              ⟨⟨[]⟩⟩).1.Properties.Periods
    ∧ (env.parseJSON body2 = none → (getMaxPercipChance env lat long s).1.1 = 0)
    ∧ (∀ j, env.parseJSON body2 = some j → hasPeriods j = false →
        (getMaxPercipChance env lat long s).1.1 = 0)
    ∧ ((∀ j, env.parseJSON body = some j → hasForecastHourly j = false) →
        (Unmarshal env.parseJSON decodePointResponse body
          ⟨⟨"", ""⟩⟩).1.Properties.ForecastHourly = "")
    ∧ (∀ j, hasRainChanceValue j = false →
        (decodePeriod env.parseTime j period.zero).val.RainChance.Value = 0)
    ∧ (∀ j, hasStartTime j = false →
        (decodePeriod env.parseTime j period.zero).val.StartTime = Time.zero) := by
  have hmax := getMaxPercipChance_ok env lat long s s1 s2 s3 s4 resp resp2 body body2 hget
    hread hget2 hread2
  refine ⟨by rw [hmax], by rw [hmax], ?_, ?_, ?_, ?_, ?_⟩
  · intro hnone
    rw [hmax, unmarshal_forecast_lacking env.parseJSON env.parseTime body2
      (fun j hj => by rw [hnone] at hj; cases hj)]
    rfl
  · intro j hj hlack
    rw [hmax, unmarshal_forecast_lacking env.parseJSON env.parseTime body2
      (fun j2 hj2 => by rw [hj] at hj2; cases hj2; exact hlack)]
    rfl
  · exact unmarshal_point_lacking env.parseJSON body
  · intro j hj
    exact decodePeriod_rainChance_lacking env.parseTime j period.zero hj rfl
  · intro j hj
    exact decodePeriod_startTime_lacking env.parseTime j period.zero hj

/-- C8, at a concrete input: in the sample world, a forecast body that is not valid JSON
gives the result 0 with a nil error, although `json.Unmarshal` reports an error for it. -/
theorem getMaxPercipChance_ignores_json_errors_witness :
    (Unmarshal (sampleEnv (some samplePoint) none none).parseJSON
        (decodeForecastResponse sampleParseTime) "forecast" ⟨⟨[]⟩⟩).2
        = some UnmarshalError.invalidText
    ∧ (getMaxPercipChance (sampleEnv (some samplePoint) none none) SF_LAT SF_LONG []).1.2
        = none
    ∧ (getMaxPercipChance (sampleEnv (some samplePoint) none none) SF_LAT SF_LONG []).1.1
        = 0 :=
  ⟨rfl,
    (getMaxPercipChance_ignores_json_errors (sampleEnv (some samplePoint) none none)
      SF_LAT SF_LONG []
      [.get "https://api.weather.gov/points/37.750000,-122.430000"]
      [.get "https://api.weather.gov/points/37.750000,-122.430000", .readAll 1]
      [.get "https://api.weather.gov/points/37.750000,-122.430000", .readAll 1,
        .get "https://api.weather.gov/gridpoints/MTR/85,104/forecast/hourly"]
      [.get "https://api.weather.gov/points/37.750000,-122.430000", .readAll 1,
        .get "https://api.weather.gov/gridpoints/MTR/85,104/forecast/hourly", .readAll 2]
      ⟨1⟩ ⟨2⟩ "point" "forecast" rfl rfl rfl rfl).1,
    rfl⟩

/-! ## `sendEmail` -/

/-- C6: when the provider's send call in `sendEmail` fails with `err`, `sendEmail` returns
a non-nil error. If `err` is a provider error whose code is one of the three codes of the
switch, the returned error is `err` wrapped with that code as label, and its message is
the code, a colon and the message of `err`; for every other error, a provider error with
another code included, the returned error is `err` itself. -/
theorem sendEmail_send_failure {σ : Type} (env : Env σ) (maxPercipChance : Int)
    (s s1 s2 s3 : σ) (sess : Session) (location : Location) (err : Err)
    (hsess : env.NewSession "us-east-1" s = (.ok sess, s1))
    (hloc : env.LoadLocation "America/Los_Angeles" s1 = (.ok location, s2))
    (hsend : env.SendEmail sess
        (assembleEmail ((env.Now s2).1.In location).Format_01_02_2006 maxPercipChance)
        (env.Now s2).2 = (some err, s3)) :
    ∃ e : Err, sendEmail env maxPercipChance s = (.returned (some e), s3)
      ∧ (∀ code, err.Code = some code →
          (code = env.ErrCodeMessageRejected
            ∨ code = env.ErrCodeMailFromDomainNotVerifiedException
            ∨ code = env.ErrCodeConfigurationSetDoesNotExistException) →
          e = .wrapped code err ∧ e.Error = code ++ ": " ++ err.Error)
      ∧ ((∀ code, err.Code = some code →
            code ≠ env.ErrCodeMessageRejected
              ∧ code ≠ env.ErrCodeMailFromDomainNotVerifiedException
              ∧ code ≠ env.ErrCodeConfigurationSetDoesNotExistException) →
          e = err) := by
  refine ⟨labelSendError env err, ?_, ?_, ?_⟩
  · simp only [sendEmail, hsess, hloc, hsend]
  · intro code hcode hin
    have hlabel : labelSendError env err = .wrapped code err := by
      unfold labelSendError
      rw [hcode]
      simp only
      rcases hin with h | h | h
      · rw [if_pos h, h]
      · by_cases h1 : code = env.ErrCodeMessageRejected
        · rw [if_pos h1, h1]
        · rw [if_neg h1, if_pos h, h]
      · by_cases h1 : code = env.ErrCodeMessageRejected
        · rw [if_pos h1, h1]
        · by_cases h2 : code = env.ErrCodeMailFromDomainNotVerifiedException
          · rw [if_neg h1, if_pos h2, h2]
          · rw [if_neg h1, if_neg h2, if_pos h, h]
    rw [hlabel]
    exact ⟨rfl, rfl⟩
  · intro hnot
    unfold labelSendError
    rcases hcode : err.Code with _ | code
    · rfl
    · obtain ⟨h1, h2, h3⟩ := hnot code hcode
      simp only [if_neg h1, if_neg h2, if_neg h3]

/-- C6, at concrete inputs: in the sample world a `MessageRejected` provider error comes
back with a message that starts with the label `MessageRejected`, and a provider error
with the code `Throttling` comes back as it is. -/
theorem sendEmail_send_failure_witness :
    (∃ e : Err,
      sendEmail (sampleEnv (some samplePoint) (some (sampleForecast 36))
          (some (.aws "MessageRejected" "MessageRejected: Email address is not verified.")))
          36 []
        = (.returned (some e),
            [.newSession "us-east-1", .loadLocation "America/Los_Angeles", .now,
              .sendEmail "Rain Reminder - 01-01-2024"
                "It\x27s likely going to rain today. Maximum percipitation chance is 36%."])
      ∧ e.Error = "MessageRejected: MessageRejected: Email address is not verified.")
    ∧ (sendEmail (sampleEnv (some samplePoint) (some (sampleForecast 36))
          (some (.aws "Throttling" "Throttling: Rate exceeded"))) 36 []).1
        = .returned (some (.aws "Throttling" "Throttling: Rate exceeded")) := by
  obtain ⟨e, he, hwrap, _⟩ := sendEmail_send_failure
    (sampleEnv (some samplePoint) (some (sampleForecast 36))
      (some (.aws "MessageRejected" "MessageRejected: Email address is not verified.")))
    36 [] [.newSession "us-east-1"]
    [.newSession "us-east-1", .loadLocation "America/Los_Angeles"]
    [.newSession "us-east-1", .loadLocation "America/Los_Angeles", .now,
      .sendEmail "Rain Reminder - 01-01-2024"
        "It\x27s likely going to rain today. Maximum percipitation chance is 36%."]
    ⟨1⟩ zoneMinus8
    (.aws "MessageRejected" "MessageRejected: Email address is not verified.") rfl rfl rfl
  exact ⟨⟨e, he, (hwrap "MessageRejected" rfl (Or.inl rfl)).2⟩, rfl⟩

/-! ## `HandleRequest` -/

/-- C4: when the resolver returns the value `v` and no error, `HandleRequest` invokes
`sendEmail` exactly once, with the argument `v`, if `v > 35`, and not at all if `v ≤ 35`:
after the handler's own print, the world it leaves is the world left by one run of
`sendEmail v` in the first case and the world after the print in the second. -/
theorem HandleRequest_notifies_iff_above_35 {σ : Type} (env : Env σ) (s s1 : σ) (v : Int)
    (hres : getMaxPercipChance env SF_LAT SF_LONG s = ((v, none), s1)) :
    (35 < v →
      (HandleRequest env s).2
        = (sendEmail env v
            (env.Printf ("maxPercipChance: " ++ toString v ++ "%\n") s1)).2)
    ∧ (v ≤ 35 →
      HandleRequest env s
        = (.returned (some "success", none),
            env.Printf ("maxPercipChance: " ++ toString v ++ "%\n") s1)) := by
  constructor
  · intro hv
    simp only [HandleRequest, hres, gt_iff_lt, if_pos hv]
    rcases hsend : sendEmail env v (env.Printf ("maxPercipChance: " ++ toString v ++ "%\n") s1)
      with ⟨out, s3⟩
    rcases out with (_ | e) | p <;> rfl
  · intro hv
    have hv2 : ¬ (35 < v) := by omega
    simp only [HandleRequest, hres, gt_iff_lt, if_neg hv2]

/-- C4, at concrete inputs: in the sample world a maximum of 36 leads to exactly one call
of the provider's send API, for the value 36, and a maximum of 35 to none. -/
theorem HandleRequest_notifies_iff_above_35_witness :
    ((HandleRequest (sampleEnv (some samplePoint) (some (sampleForecast 36)) none) []).2
        = (sendEmail (sampleEnv (some samplePoint) (some (sampleForecast 36)) none) 36
            [.get "https://api.weather.gov/points/37.750000,-122.430000", .readAll 1,
              .get "https://api.weather.gov/gridpoints/MTR/85,104/forecast/hourly",
              .readAll 2, .now, .close 2, .close 1, .printf "maxPercipChance: 36%\n"]).2
      ∧ (HandleRequest (sampleEnv (some samplePoint) (some (sampleForecast 36)) none)
            []).2.filter Event.isSend
          = [.sendEmail "Rain Reminder - 01-01-2024"
              "It\x27s likely going to rain today. Maximum percipitation chance is 36%."])
    ∧ (HandleRequest (sampleEnv (some samplePoint) (some (sampleForecast 35)) none) []
        = (.returned (some "success", none),
            [.get "https://api.weather.gov/points/37.750000,-122.430000", .readAll 1,
              .get "https://api.weather.gov/gridpoints/MTR/85,104/forecast/hourly",
              .readAll 2, .now, .close 2, .close 1, .printf "maxPercipChance: 35%\n"])
      ∧ (HandleRequest (sampleEnv (some samplePoint) (some (sampleForecast 35)) none)
            []).2.filter Event.isSend = []) :=
  ⟨⟨(HandleRequest_notifies_iff_above_35
        (sampleEnv (some samplePoint) (some (sampleForecast 36)) none) []
        [.get "https://api.weather.gov/points/37.750000,-122.430000", .readAll 1,
          .get "https://api.weather.gov/gridpoints/MTR/85,104/forecast/hourly",
          .readAll 2, .now, .close 2, .close 1] 36 rfl).1 (by decide), rfl⟩,
    ⟨(HandleRequest_notifies_iff_above_35
        (sampleEnv (some samplePoint) (some (sampleForecast 35)) none) []
        [.get "https://api.weather.gov/points/37.750000,-122.430000", .readAll 1,
          .get "https://api.weather.gov/gridpoints/MTR/85,104/forecast/hourly",
          .readAll 2, .now, .close 2, .close 1] 35 rfl).2 (by decide), rfl⟩⟩

/-- C5, as stated, fails: in the sample world without a time zone database the resolver
returns 36 and no error, the notifier panics in `LoadLocation`, and `HandleRequest`
returns nothing at all, neither `"success"` nor an error: the panic leaves the handler. -/
theorem HandleRequest_panic_counterexample :
    (getMaxPercipChance (sampleEnvNoZone (some samplePoint) (some (sampleForecast 36)) none)
        SF_LAT SF_LONG []).1 = (36, none)
    ∧ HandleRequest (sampleEnvNoZone (some samplePoint) (some (sampleForecast 36)) none) []
        = (.panicked (.plain "unknown time zone America/Los_Angeles"),
            [.get "https://api.weather.gov/points/37.750000,-122.430000", .readAll 1,
              .get "https://api.weather.gov/gridpoints/MTR/85,104/forecast/hourly",
              .readAll 2, .now, .close 2, .close 1, .printf "maxPercipChance: 36%\n",
              .newSession "us-east-1", .loadLocation "America/Los_Angeles"])
    ∧ ¬ (∃ res : Option String × Option Err,
          (HandleRequest
            (sampleEnvNoZone (some samplePoint) (some (sampleForecast 36)) none) []).1
            = .returned res) := by
  refine ⟨rfl, rfl, ?_⟩
  rintro ⟨res, hres⟩
  have hpanic :
      (HandleRequest
        (sampleEnvNoZone (some samplePoint) (some (sampleForecast 36)) none) []).1
        = .panicked (.plain "unknown time zone America/Los_Angeles") := rfl
  rw [hpanic] at hres
  cases hres

/-- C5, amended: for every outcome `(v, oerr)` of the resolver and every outcome `out` of
the notifier, `HandleRequest` returns `"success"` with a nil error exactly when the
resolver returned no error and either `v ≤ 35` or the notifier returned nil. When the
resolver returned an error, the handler returns no result and that error, unchanged, in
the world the resolver left (the notifier is not invoked); when the notifier returned an
error, the handler returns no result and that error, unchanged. So whenever the notifier
is not invoked or returns, the handler returns either success or no result with the first
error. When the notifier is invoked and panics, the handler does not return: the panic is
passed on. -/
theorem HandleRequest_outcome {σ : Type} (env : Env σ) (s s1 s3 : σ) (v : Int)
    (oerr : Option Err) (out : Ret (Option Err))
    (hres : getMaxPercipChance env SF_LAT SF_LONG s = ((v, oerr), s1))
    (hsend : sendEmail env v (env.Printf ("maxPercipChance: " ++ toString v ++ "%\n") s1)
      = (out, s3)) :
    ((HandleRequest env s).1 = .returned (some "success", none)
        ↔ oerr = none ∧ (v ≤ 35 ∨ out = .returned none))
    ∧ (∀ e, oerr = some e → HandleRequest env s = (.returned (none, some e), s1))
    ∧ (∀ e, oerr = none → 35 < v → out = .returned (some e) →
        HandleRequest env s = (.returned (none, some e), s3))
    ∧ ((oerr = none → 35 < v → ∀ p, out ≠ .panicked p) →
        ¬ (oerr = none ∧ (v ≤ 35 ∨ out = .returned none)) →
        ∃ e, (HandleRequest env s).1 = .returned (none, some e)
          ∧ (oerr = some e ∨ (oerr = none ∧ 35 < v ∧ out = .returned (some e))))
    ∧ (∀ p, oerr = none → 35 < v → out = .panicked p →
        HandleRequest env s = (.panicked p, s3)) := by
  rcases oerr with _ | e0
  · by_cases hv : 35 < v
    · rcases out with (_ | e) | p
      · simp [HandleRequest, hres, hsend, hv]
      · simp [HandleRequest, hres, hsend, hv]
      · simp [HandleRequest, hres, hsend, hv]
    · have hv2 : v ≤ 35 := by omega
      simp [HandleRequest, hres, hv, hv2]
  · simp [HandleRequest, hres]

/-- C5, amended, at concrete inputs: in the sample world with the maximum 36, a send call
that fails makes the handler return no result and the error of the notifier, unchanged,
and a send call that succeeds makes it return `"success"`. -/
theorem HandleRequest_outcome_witness :
    HandleRequest (sampleEnv (some samplePoint) (some (sampleForecast 36))
        (some (.plain "RequestError: send request failed"))) []
      = (.returned (none, some (.plain "RequestError: send request failed")),
          [.get "https://api.weather.gov/points/37.750000,-122.430000", .readAll 1,
            .get "https://api.weather.gov/gridpoints/MTR/85,104/forecast/hourly",
            .readAll 2, .now, .close 2, .close 1, .printf "maxPercipChance: 36%\n",
            .newSession "us-east-1", .loadLocation "America/Los_Angeles", .now,
            .sendEmail "Rain Reminder - 01-01-2024"
              "It\x27s likely going to rain today. Maximum percipitation chance is 36%."])
    ∧ ((HandleRequest (sampleEnv (some samplePoint) (some (sampleForecast 36)) none) []).1
        = .returned (some "success", none)) :=
  ⟨(HandleRequest_outcome
      (sampleEnv (some samplePoint) (some (sampleForecast 36))
        (some (.plain "RequestError: send request failed"))) []
      [.get "https://api.weather.gov/points/37.750000,-122.430000", .readAll 1,
        .get "https://api.weather.gov/gridpoints/MTR/85,104/forecast/hourly",
        .readAll 2, .now, .close 2, .close 1]
      [.get "https://api.weather.gov/points/37.750000,-122.430000", .readAll 1,
        .get "https://api.weather.gov/gridpoints/MTR/85,104/forecast/hourly",
        .readAll 2, .now, .close 2, .close 1, .printf "maxPercipChance: 36%\n",
        .newSession "us-east-1", .loadLocation "America/Los_Angeles", .now,
        .sendEmail "Rain Reminder - 01-01-2024"
          "It\x27s likely going to rain today. Maximum percipitation chance is 36%."]
      36 none (.returned (some (.plain "RequestError: send request failed"))) rfl rfl).2.2.1
      (.plain "RequestError: send request failed") rfl (by decide) rfl,
    rfl⟩

end WeatherEmail
